import Mathlib

/-!
# data-alchemist: client views

A shallow embedding of the stateful parts of the React client
(`src/client/src/WikiPage.jsx`, `analytics.jsx`, `statistics.jsx`,
`visualize.jsx`) and the properties stated about them.

React state is modelled by explicit state passing: a component's `useState`
cells are the fields of a record, an event handler is a function on that
record, and an `async` handler is split at its `await` into the synchronous
part (which also yields the request it issues) and the continuation that runs
when the request settles.
-/

namespace WikiPage

/-- The `role` field of a chat message: `'user'` or `'assistant'`. -/
inductive Role where
  | user
  | assistant
  deriving DecidableEq, Repr

/-- One source citation of an assistant reply; only `title` is read by the client. -/
structure Source where
  title : String
  deriving DecidableEq, Repr

/-- One entry of the `messages` array. `sources` is `none` when the property
is absent or `undefined`. -/
structure Message where
  role : Role
  content : String
  sources : Option (List Source)
  deriving DecidableEq, Repr

/-- The `{role, content}` objects of `chat_history`. -/
structure HistoryEntry where
  role : Role
  content : String
  deriving DecidableEq, Repr

/-- The JSON body posted to `/api/wiki/chat`. -/
structure ChatRequest where
  question : String
  chat_history : List HistoryEntry
  deriving DecidableEq, Repr

/-- The parsed JSON body of a chat response, `{answer, sources?}`. -/
structure ChatResponse where
  answer : String
  sources : Option (List Source)
  deriving DecidableEq, Repr

/-- How `await fetch(...)` followed by `await response.json()` settles: the
fetch promise rejects, the body is not JSON, or a JSON object is obtained. The
handlers never read the HTTP status, so a body that parses is `ok` whatever
the status was. -/
inductive Settled (α : Type) where
  | networkError
  | parseError
  | ok (data : α)
  deriving DecidableEq, Repr

/-- The `useState` cells of `WikiPage` (lines 6-11). -/
structure State where
  wikiContent : String
  loading : Bool
  chatOpen : Bool
  messages : List Message
  inputValue : String
  chatLoading : Bool
  deriving DecidableEq, Repr

/-- The initial values passed to `useState`. -/
def initialState : State :=
  { wikiContent := "", loading := true, chatOpen := false,
    messages := [], inputValue := "", chatLoading := false }

/-- ECMAScript `WhiteSpace` and `LineTerminator` code points, the characters
removed by `String.prototype.trim`. -/
def isJsWhiteSpace (c : Char) : Bool :=
  let n := c.toNat
  n = 0x09 || n = 0x0A || n = 0x0B || n = 0x0C || n = 0x0D || n = 0x20 ||
  n = 0xA0 || n = 0x1680 || (0x2000 ≤ n && n ≤ 0x200A) || n = 0x2028 ||
  n = 0x2029 || n = 0x202F || n = 0x205F || n = 0x3000 || n = 0xFEFF

/-- The characters of `s.trim()`: white space removed from both ends. -/
def trimChars (cs : List Char) : List Char :=
  ((cs.dropWhile isJsWhiteSpace).reverse.dropWhile isJsWhiteSpace).reverse

/-- The JavaScript `s.trim()`. -/
def trim (s : String) : String := ⟨trimChars s.data⟩

/-- JavaScript truthiness of a string: only the empty string is falsy. -/
def truthy (s : String) : Bool := !s.data.isEmpty

/-- The fixed fallback reply of the `catch` branch (lines 76-79). -/
def fallbackMessage : Message :=
  { role := Role.assistant, content := "Sorry, I encountered an error.", sources := none }

/-- The fixed markdown shown when generation fails (line 35). -/
def wikiErrorContent : String := "# Error\n\nCould not load wiki content."

/-- The part of `sendMessage` before the first `await` (lines 42-63): the guard,
the three state updates, and the request built from the values the handler
closed over (`messages` and `inputValue` of the rendered state). The second
component is the request issued, `none` when the handler returned early. -/
def sendMessageSync (st : State) : State × Option ChatRequest :=
  if !truthy (trim st.inputValue) then (st, none)
  else
    let userMessage : Message :=
      { role := Role.user, content := st.inputValue, sources := none }
    let chatHistory : List HistoryEntry :=
      st.messages.map (fun msg => { role := msg.role, content := msg.content })
    ({ st with
        messages := st.messages ++ [userMessage],
        inputValue := "",
        chatLoading := true },
     some { question := st.inputValue, chat_history := chatHistory })

/-- The continuation of `sendMessage` after the request settles (lines 65-82):
the assistant entry on success, the fallback in `catch`, and `finally`. The
updates are functional (`prev => [...prev, m]`), so they apply to the state
current at that time. -/
def sendMessageSettle (cur : State) (r : Settled ChatResponse) : State :=
  match r with
  | Settled.ok data =>
      let assistantMessage : Message :=
        { role := Role.assistant, content := data.answer, sources := data.sources }
      { cur with messages := cur.messages ++ [assistantMessage], chatLoading := false }
  | _ =>
      { cur with messages := cur.messages ++ [fallbackMessage], chatLoading := false }

/-- A whole `sendMessage` call against a server that answers request `req`
with `server req`; no other event is handled in between. -/
def sendMessage (st : State) (server : ChatRequest → Settled ChatResponse) : State :=
  match sendMessageSync st with
  | (st1, none) => st1
  | (st1, some req) => sendMessageSettle st1 (server req)

/-- The loop of `Array.prototype.join`: before every element but the first
the separator is appended to the result `acc`, then the element. -/
def joinLoop (sep : String) : List String → Nat → String → String
  | [], _, acc => acc
  | e :: rest, k, acc => joinLoop sep rest (k + 1) ((if k > 0 then acc ++ sep else acc) ++ e)

/-- The JavaScript `xs.join(sep)` on an array of strings. -/
def join (xs : List String) (sep : String) : String := joinLoop sep xs 0 ""

/-- The value of `msg.sources.map(s => s.title).join(', ')` (line 160). -/
def joinedTitles (sources : List Source) : String :=
  join (sources.map (fun s => s.title)) ", "

/-- The sources block of one rendered message (lines 157-163): present only
under the guard `msg.sources && msg.sources.length > 0`, and then the text
`Sources: ` followed by the joined titles. -/
def sourcesLine (msg : Message) : Option String :=
  match msg.sources with
  | none => none
  | some sources =>
      if sources.length > 0 then some ("Sources: " ++ joinedTitles sources) else none

/-- The typing indicator is rendered exactly when `chatLoading` holds (line 167). -/
def typingIndicatorShown (st : State) : Bool := st.chatLoading

/-- The parsed JSON body of a generate response, `{content}`. -/
structure WikiResponse where
  content : String
  deriving DecidableEq, Repr

/-- The part of `generateWiki` before the first `await` (line 25). -/
def generateWikiSync (st : State) : State :=
  { st with loading := true }

/-- The continuation of `generateWiki` once the request settles (lines 31-38). -/
def generateWikiSettle (cur : State) (r : Settled WikiResponse) : State :=
  match r with
  | Settled.ok data => { cur with wikiContent := data.content, loading := false }
  | _ => { cur with wikiContent := wikiErrorContent, loading := false }

/-- A whole `generateWiki` call. -/
def generateWiki (st : State) (r : Settled WikiResponse) : State :=
  generateWikiSettle (generateWikiSync st) r

/-- What the content pane shows (lines 96-105). -/
inductive ContentView where
  | spinner
  | markdown (text : String)
  deriving DecidableEq, Repr

/-- The content pane as a function of the state. -/
def contentView (st : State) : ContentView :=
  if st.loading then ContentView.spinner else ContentView.markdown st.wikiContent

end WikiPage

namespace Analytics

/-- One row of the hard-coded manifest. -/
structure FileRecord where
  id : Nat
  name : String
  size : String
  type : String
  status : String
  deriving DecidableEq, Repr

/-- The fixed record set (analytics.jsx lines 4-10). -/
def TEST_DATA : List FileRecord :=
  [ { id := 1, name := "core_engine.py", size := "45 KB", type := "Python", status := "Processed" },
    { id := 2, name := "user_metrics.json", size := "1.2 MB", type := "JSON", status := "Transmuted" },
    { id := 3, name := "alchemy_config.yaml", size := "12 KB", type := "YAML", status := "Verified" },
    { id := 4, name := "raw_database_dump.sql", size := "15.4 MB", type := "SQL", status := "Pending" },
    { id := 5, name := "style_guide.css", size := "8 KB", type := "CSS", status := "Processed" } ]

/-- Whether `needle` occurs at the very start of `hay`. -/
def startsWith : List Char → List Char → Bool
  | _, [] => true
  | [], _ :: _ => false
  | h :: hs, n :: ns => h == n && startsWith hs ns

/-- Whether `needle` occurs in `hay` at some position, scanning left to right. -/
def includesChars (needle : List Char) : List Char → Bool
  | [] => startsWith [] needle
  | h :: hs => startsWith (h :: hs) needle || includesChars needle hs

/-- The JavaScript `hay.includes(needle)`. -/
def includes (hay needle : String) : Bool := includesChars needle.data hay.data

/-- The filter callback of line 16. `toLowerCase` is the runtime's
`String.prototype.toLowerCase`, taken as a parameter. -/
def nameMatches (toLowerCase : String → String) (searchTerm : String) (file : FileRecord) : Bool :=
  includes (toLowerCase file.name) (toLowerCase searchTerm)

/-- The derived list `filteredFiles` (lines 15-17). -/
def filteredFiles (toLowerCase : String → String) (searchTerm : String) : List FileRecord :=
  TEST_DATA.filter (nameMatches toLowerCase searchTerm)

/-- The guard of the "No matches found in the vault." paragraph (line 51). -/
def noResultsShown (filtered : List FileRecord) : Bool := filtered.length == 0

/-- Lower-casing of the letters `A`-`Z`, every other character kept: what
`toLowerCase` does on strings of ASCII characters. -/
def asciiToLowerCase (s : String) : String := ⟨s.data.map Char.toLower⟩

/-- A string all of whose characters are ASCII. -/
def IsAscii (s : String) : Prop := ∀ c ∈ s.data, c.toNat < 128

/-- The one fact about the runtime's `toLowerCase` that is relied on: on ASCII
strings it lower-cases `A`-`Z` and keeps everything else. -/
def LowersAscii (toLowerCase : String → String) : Prop :=
  ∀ s, IsAscii s → toLowerCase s = asciiToLowerCase s

/-- Reading of "contains `s` as a substring when both are compared
case-insensitively", following the words of the specification: the
lower-cased search text occurs as a contiguous block of the lower-cased name. -/
def ContainsIgnoringCase (toLowerCase : String → String) (name s : String) : Prop :=
  ∃ pre suf : List Char, (toLowerCase name).data = pre ++ (toLowerCase s).data ++ suf

end Analytics

namespace Statistics

/-- The constant `targetPercent = 94.8`. A JavaScript number is identified with
the decimal numeral it prints as, so the values are exact rationals. -/
def targetPercent : ℚ := 94.8

/-- The constant `targetSize = 2.4`. -/
def targetSize : ℚ := 2.4

/-- Rounding of a non-negative number to one decimal place, ties upwards
(`Number.prototype.toFixed` picks the larger `n` when two are equally close). -/
def roundTenths (x : ℚ) : ℚ := (⌊x * 10 + 1 / 2⌋ : ℚ) / 10

/-- The number `+x.toFixed(1)`: `toFixed` rounds the magnitude and keeps the sign. -/
def toFixed1 (x : ℚ) : ℚ := if x < 0 then -(roundTenths (-x)) else roundTenths x

/-- The updater passed to `setPercent` (statistics.jsx lines 14-20). `err` is
the rounding error of the binary floating-point sum `prev + 1.2` against the
exact sum of the two decimals. -/
def percentUpdate (err : ℚ) (prev : ℚ) : ℚ :=
  if prev ≥ targetPercent then targetPercent else toFixed1 (prev + 1.2 + err)

/-- The updater passed to `setSize` (lines 25-31), with the rounding error of
`prev + 0.1`. -/
def sizeUpdate (err : ℚ) (prev : ℚ) : ℚ :=
  if prev ≥ targetSize then targetSize else toFixed1 (prev + 0.1 + err)

/-- The value of `percent` after `n` timer ticks, starting from `useState(0)`;
`err k` is the rounding error of the sum at tick `k`. -/
def percentAfter (err : ℕ → ℚ) : ℕ → ℚ
  | 0 => 0
  | n + 1 => percentUpdate (err n) (percentAfter err n)

/-- The value of `size` after `n` timer ticks, starting from `useState(0)`. -/
def sizeAfter (err : ℕ → ℚ) : ℕ → ℚ
  | 0 => 0
  | n + 1 => sizeUpdate (err n) (sizeAfter err n)

/-- The rounding errors are far below half a tenth (for IEEE doubles of this
magnitude they are below `10⁻¹³`; the bound asked for is only `1/100`). -/
def SmallErrors (err : ℕ → ℚ) : Prop := ∀ k, -(1 / 100) ≤ err k ∧ err k ≤ 1 / 100

end Statistics

namespace Visualize

/-- One node of the fixed graph. -/
structure Node where
  id : String
  x : Nat
  y : Nat
  label : String
  impact : Nat
  deriving DecidableEq, Repr

/-- One edge of the fixed graph. -/
structure Edge where
  «from» : String
  «to» : String
  type : String
  deriving DecidableEq, Repr

/-- The shape of `VIZ_DATA`. -/
structure Graph where
  nodes : List Node
  edges : List Edge
  deriving DecidableEq, Repr

/-- The fixed graph (visualize.jsx lines 4-18). -/
def VIZ_DATA : Graph :=
  { nodes :=
      [ { id := "doc_1", x := 400, y := 100, label := "Project Alpha - Kickoff", impact := 5 },
        { id := "doc_5", x := 200, y := 300, label := "Budget Meeting", impact := 2 },
        { id := "doc_4", x := 400, y := 300, label := "Q1 Retrospective", impact := 2 },
        { id := "doc_3", x := 600, y := 300, label := "Architecture Review", impact := 2 },
        { id := "doc_2", x := 400, y := 500, label := "Security Policy", impact := 1 } ],
    edges :=
      [ { «from» := "doc_1", «to» := "doc_5", type := "updates" },
        { «from» := "doc_1", «to» := "doc_4", type := "relates_to" },
        { «from» := "doc_1", «to» := "doc_3", type := "contradicts" },
        { «from» := "doc_4", «to» := "doc_2", type := "relates_to" } ] }

/-- The handler `onClick={() => setSelectedNode(node)}` of a node (line 52),
as a function on the `selectedNode` cell (`none` is `null`). -/
def clickNode (node : Node) (_selectedNode : Option Node) : Option Node := some node

/-- The handler `onClick={() => setSelectedNode(null)}` of the Close button (line 78). -/
def clickClose (_selectedNode : Option Node) : Option Node := none

/-- The drawer carries the class `open` exactly when `selectedNode` is truthy (line 67). -/
def drawerOpen (selectedNode : Option Node) : Bool := selectedNode.isSome

/-- What the drawer shows (lines 68-80): the label and the impact score of the
selected node, nothing when none is selected. -/
def drawerContent (selectedNode : Option Node) : Option (String × Nat) :=
  selectedNode.map (fun n => (n.label, n.impact))

/-- The test `selectedNode?.id === node.id` marking a circle active (line 57). -/
def isActive (selectedNode : Option Node) (node : Node) : Bool :=
  match selectedNode with
  | some s => s.id == node.id
  | none => false

end Visualize

/-! ## WikiPage: chat and content loading -/

namespace WikiPage

theorem dropWhile_of_all (p : Char → Bool) (cs : List Char) (h : ∀ c ∈ cs, p c = true) :
    cs.dropWhile p = [] := by
  induction cs with
  | nil => rfl
  | cons c cs ih =>
    have hc : p c = true := h c (List.mem_cons_self c cs)
    have hcs : cs.dropWhile p = [] := ih (fun d hd => h d (List.mem_cons_of_mem c hd))
    simp [List.dropWhile, hc, hcs]

theorem trim_of_blank (s : String) (h : ∀ c ∈ s.data, isJsWhiteSpace c = true) :
    trim s = "" := by
  unfold trim trimChars
  rw [dropWhile_of_all isJsWhiteSpace s.data h]
  rfl

theorem sync_rejected (st : State) (h : truthy (trim st.inputValue) = false) :
    sendMessageSync st = (st, none) := by
  simp [sendMessageSync, h]

theorem sync_accepted (st : State) (h : truthy (trim st.inputValue) = true) :
    sendMessageSync st =
      ({ st with
          messages := st.messages ++ [{ role := Role.user, content := st.inputValue, sources := none }],
          inputValue := "",
          chatLoading := true },
       some { question := st.inputValue,
              chat_history := st.messages.map (fun msg => { role := msg.role, content := msg.content }) }) := by
  simp [sendMessageSync, h]

theorem joinLoop_succ (sep : String) (xs : List String) (k : Nat) (acc : String) :
    joinLoop sep xs (k + 1) acc = String.intercalate.go acc sep xs := by
  induction xs generalizing k acc with
  | nil => simp [joinLoop, String.intercalate.go]
  | cons e rest ih =>
    simp only [joinLoop, String.intercalate.go]
    rw [ih]
    simp

theorem join_eq_intercalate (xs : List String) (sep : String) :
    join xs sep = sep.intercalate xs := by
  cases xs with
  | nil => rfl
  | cons e rest =>
    simp only [join, joinLoop, String.intercalate]
    rw [joinLoop_succ]
    simp

theorem truthy_iff_ne_empty (s : String) : truthy s = true ↔ s ≠ "" := by
  rcases s with ⟨cs⟩
  cases cs with
  | nil => simp [truthy]
  | cons c cs =>
    simp only [truthy, List.isEmpty_cons, Bool.not_false, true_iff]
    intro h
    exact absurd (congrArg String.data h) (by simp)

theorem settle_messages (cur : State) (r : Settled ChatResponse) :
    ∃ a : Message, a.role = Role.assistant ∧
      (sendMessageSettle cur r).messages = cur.messages ++ [a] ∧
      (sendMessageSettle cur r).chatLoading = false := by
  cases r with
  | networkError => exact ⟨fallbackMessage, rfl, rfl, rfl⟩
  | parseError => exact ⟨fallbackMessage, rfl, rfl, rfl⟩
  | ok data => exact ⟨_, rfl, rfl, rfl⟩

theorem sendMessage_accepted (st : State) (h : truthy (trim st.inputValue) = true)
    (server : ChatRequest → Settled ChatResponse) :
    sendMessage st server =
      sendMessageSettle (sendMessageSync st).1
        (server { question := st.inputValue,
                  chat_history := st.messages.map (fun msg => { role := msg.role, content := msg.content }) }) := by
  simp [sendMessage, sync_accepted st h]

/-- C1: an accepted send appends exactly the user entry `{role: 'user', content: t}`
to the log `L` before the request settles, and exactly one assistant entry after
it settles, whatever the outcome; the length grows by 2 and `L` stays a prefix. -/
theorem C1_sendMessage_appends_two (st : State) (h : trim st.inputValue ≠ "") :
    (sendMessageSync st).1.messages
        = st.messages ++ [{ role := Role.user, content := st.inputValue, sources := none }] ∧
    ∀ server : ChatRequest → Settled ChatResponse, ∃ a : Message, a.role = Role.assistant ∧
      (sendMessage st server).messages
        = st.messages ++ [{ role := Role.user, content := st.inputValue, sources := none }, a] ∧
      (sendMessage st server).messages.length = st.messages.length + 2 ∧
      (sendMessage st server).messages.take st.messages.length = st.messages := by
  have ht : truthy (trim st.inputValue) = true := (truthy_iff_ne_empty _).mpr h
  refine ⟨by rw [sync_accepted st ht], ?_⟩
  intro server
  rw [sendMessage_accepted st ht server]
  obtain ⟨a, ha, hm, _⟩ := settle_messages (sendMessageSync st).1
    (server { question := st.inputValue,
              chat_history := st.messages.map (fun msg => { role := msg.role, content := msg.content }) })
  refine ⟨a, ha, ?_, ?_, ?_⟩
  · rw [hm, sync_accepted st ht]; simp
  · rw [hm, sync_accepted st ht]; simp
  · rw [hm, sync_accepted st ht]; simp

theorem C1_witness :
    trim "hi" ≠ "" ∧
    (sendMessageSync { initialState with inputValue := "hi" }).1.messages
        = [] ++ [{ role := Role.user, content := "hi", sources := none }] :=
  ⟨by decide, (C1_sendMessage_appends_two { initialState with inputValue := "hi" } (by decide)).1⟩

/-- C2: when the input buffer is empty or holds only white space, `sendMessage`
changes nothing (log, input buffer and chat-loading flag are those of the prior
state) and issues no request. -/
theorem C2_sendMessage_blank_is_noop (st : State)
    (h : ∀ c ∈ st.inputValue.data, isJsWhiteSpace c = true) :
    trim st.inputValue = "" ∧
    sendMessageSync st = (st, none) ∧
    (∀ server : ChatRequest → Settled ChatResponse,
      sendMessage st server = st ∧
      (sendMessage st server).messages = st.messages ∧
      (sendMessage st server).inputValue = st.inputValue ∧
      (sendMessage st server).chatLoading = st.chatLoading) := by
  have ht : trim st.inputValue = "" := trim_of_blank _ h
  have hf : truthy (trim st.inputValue) = false := by rw [ht]; rfl
  have hs : sendMessageSync st = (st, none) := sync_rejected st hf
  refine ⟨ht, hs, ?_⟩
  intro server
  have : sendMessage st server = st := by simp [sendMessage, hs]
  rw [this]
  exact ⟨rfl, rfl, rfl, rfl⟩

theorem C2_witness :
    (sendMessageSync { initialState with inputValue := " \t\n" }
      = ({ initialState with inputValue := " \t\n" }, none)) :=
  (C2_sendMessage_blank_is_noop { initialState with inputValue := " \t\n" } (by decide)).2.1

/-- C3: the body posted by an accepted send has `question` equal to the input
text and `chat_history` equal to the prior log mapped entry by entry to
`{role, content}`: same length, same order, no `sources`, and without the new
user entry. With the text "What database was chosen?" and an empty log the body
is `{question: "What database was chosen?", chat_history: []}`. -/
theorem C3_request_body (st : State) (h : trim st.inputValue ≠ "") :
    (∃ req : ChatRequest, (sendMessageSync st).2 = some req ∧
      req.question = st.inputValue ∧
      req.chat_history = st.messages.map (fun m => { role := m.role, content := m.content }) ∧
      req.chat_history.length = st.messages.length ∧
      ∀ (i : Nat) (hi : i < st.messages.length),
        req.chat_history[i]? =
          some { role := (st.messages.get ⟨i, hi⟩).role,
                 content := (st.messages.get ⟨i, hi⟩).content }) ∧
    (∀ st0 : State,
      (sendMessageSync { st0 with messages := [], inputValue := "What database was chosen?" }).2
        = some { question := "What database was chosen?", chat_history := [] }) := by
  have ht : truthy (trim st.inputValue) = true := (truthy_iff_ne_empty _).mpr h
  refine ⟨⟨_, by rw [sync_accepted st ht], rfl, rfl, by simp, ?_⟩, ?_⟩
  · intro i hi
    simp [List.getElem?_map, List.getElem?_eq_getElem hi]
  · intro st0
    have hq : truthy (trim "What database was chosen?") = true := by decide
    rw [sync_accepted _ hq]
    rfl

theorem C3_witness :
    trim "Tell me about the budget" ≠ "" ∧
    ∃ req : ChatRequest,
      (sendMessageSync { initialState with
          messages := [{ role := Role.user, content := "a", sources := none },
                       { role := Role.assistant, content := "b", sources := some [{ title := "t" }] }],
          inputValue := "Tell me about the budget" }).2 = some req ∧
      req.question = "Tell me about the budget" ∧
      req.chat_history = [{ role := Role.user, content := "a" },
                          { role := Role.assistant, content := "b" }] := by
  refine ⟨by decide, ?_⟩
  obtain ⟨req, h1, h2, h3, _⟩ := (C3_request_body { initialState with
          messages := [{ role := Role.user, content := "a", sources := none },
                       { role := Role.assistant, content := "b", sources := some [{ title := "t" }] }],
          inputValue := "Tell me about the budget" } (by decide)).1
  exact ⟨req, h1, h2, h3⟩

/-- C4: when the request of an accepted send fails (the fetch rejects or the
body does not parse), the log is the prior log, the user entry, and then exactly
`{role: 'assistant', content: 'Sorry, I encountered an error.'}` without
sources; the chat-loading flag, true while pending, is false afterwards. -/
theorem C4_failure_appends_fallback (st : State) (h : trim st.inputValue ≠ "")
    (server : ChatRequest → Settled ChatResponse)
    (hfail : ∀ req, server req = Settled.networkError ∨ server req = Settled.parseError) :
    (sendMessage st server).messages
        = st.messages ++
            [{ role := Role.user, content := st.inputValue, sources := none },
             { role := Role.assistant, content := "Sorry, I encountered an error.", sources := none }] ∧
    (sendMessageSync st).1.chatLoading = true ∧
    (sendMessage st server).chatLoading = false := by
  have ht : truthy (trim st.inputValue) = true := (truthy_iff_ne_empty _).mpr h
  rw [sendMessage_accepted st ht server, sync_accepted st ht]
  rcases hfail { question := st.inputValue,
                 chat_history := st.messages.map (fun msg => { role := msg.role, content := msg.content }) }
    with hr | hr <;> rw [hr] <;> simp [sendMessageSettle, fallbackMessage]

theorem C4_witness :
    trim "hi" ≠ "" ∧
    (sendMessage { initialState with inputValue := "hi" } (fun _ => Settled.parseError)).messages
        = [] ++
            [{ role := Role.user, content := "hi", sources := none },
             { role := Role.assistant, content := "Sorry, I encountered an error.", sources := none }] :=
  ⟨by decide,
   (C4_failure_appends_fallback { initialState with inputValue := "hi" } (by decide)
      (fun _ => Settled.parseError) (fun _ => Or.inr rfl)).1⟩

/-- C5: when the request of an accepted send succeeds with `{answer: a, sources: s}`,
the appended entry is `{role: 'assistant', content: a, sources: s}`; its sources
line is shown exactly when `s` is present and non-empty, and is then the label
`Sources: ` followed by the titles of `s` in order joined by ", ". For
`{answer: "Postgres", sources: [{title: "doc1"}]}` the content is "Postgres"
and the joined titles are "doc1". -/
theorem C5_success_appends_answer (st : State) (h : trim st.inputValue ≠ "")
    (a : String) (s : Option (List Source)) :
    (sendMessage st (fun _ => Settled.ok { answer := a, sources := s })).messages
        = st.messages ++
            [{ role := Role.user, content := st.inputValue, sources := none },
             { role := Role.assistant, content := a, sources := s }] ∧
    (∀ l : List Source, s = some l → l ≠ [] →
      joinedTitles l = ", ".intercalate (l.map (fun x => x.title)) ∧
      sourcesLine { role := Role.assistant, content := a, sources := s }
        = some ("Sources: " ++ ", ".intercalate (l.map (fun x => x.title)))) ∧
    (sourcesLine { role := Role.assistant, content := a, sources := s } ≠ none
        ↔ ∃ l : List Source, s = some l ∧ l ≠ []) ∧
    (sendMessage { initialState with inputValue := "What database was chosen?" }
        (fun _ => Settled.ok { answer := "Postgres", sources := some [{ title := "doc1" }] })).messages
        = [{ role := Role.user, content := "What database was chosen?", sources := none },
           { role := Role.assistant, content := "Postgres", sources := some [{ title := "doc1" }] }] ∧
    joinedTitles [{ title := "doc1" }] = "doc1" ∧
    sourcesLine { role := Role.assistant, content := "Postgres", sources := some [{ title := "doc1" }] }
        = some "Sources: doc1" := by
  have ht : truthy (trim st.inputValue) = true := (truthy_iff_ne_empty _).mpr h
  refine ⟨?_, ?_, ?_, by decide, by decide, by decide⟩
  · rw [sendMessage_accepted st ht, sync_accepted st ht]
    simp [sendMessageSettle]
  · intro l hl hne
    subst hl
    have hpos : l.length > 0 := List.length_pos.mpr hne
    refine ⟨join_eq_intercalate _ _, ?_⟩
    simp only [sourcesLine, hpos, if_true, joinedTitles, join_eq_intercalate]
  · cases s with
    | none => simp [sourcesLine]
    | some l =>
      cases l with
      | nil => simp [sourcesLine]
      | cons x xs => simp [sourcesLine]

theorem C5_witness :
    trim "hi" ≠ "" ∧
    (sendMessage { initialState with inputValue := "hi" }
        (fun _ => Settled.ok { answer := "yes", sources := none })).messages
        = [] ++
            [{ role := Role.user, content := "hi", sources := none },
             { role := Role.assistant, content := "yes", sources := none }] :=
  ⟨by decide,
   (C5_success_appends_answer { initialState with inputValue := "hi" } (by decide) "yes" none).1⟩

/-- C6: `generateWiki` sets the loading flag while the request is pending and
clears it when the request settles; a successful response `{content: c}`
replaces the wiki content by `c`, every failure by the fixed markdown
`# Error\n\nCould not load wiki content.`; so the pane goes from the spinner to
the content or to the error text, and nowhere else. -/
theorem C6_generateWiki_outcomes (st : State) :
    (generateWikiSync st).loading = true ∧
    contentView (generateWikiSync st) = ContentView.spinner ∧
    (∀ (cur : State) (r : Settled WikiResponse), (generateWikiSettle cur r).loading = false) ∧
    (∀ c : String, (generateWiki st (Settled.ok { content := c })).wikiContent = c ∧
      contentView (generateWiki st (Settled.ok { content := c })) = ContentView.markdown c) ∧
    (generateWiki st Settled.networkError).wikiContent = "# Error\n\nCould not load wiki content." ∧
    (generateWiki st Settled.parseError).wikiContent = "# Error\n\nCould not load wiki content." ∧
    (∀ r : Settled WikiResponse,
      (∃ c : String, r = Settled.ok { content := c } ∧
        contentView (generateWiki st r) = ContentView.markdown c) ∨
      ((r = Settled.networkError ∨ r = Settled.parseError) ∧
        contentView (generateWiki st r)
          = ContentView.markdown "# Error\n\nCould not load wiki content.")) ∧
    (∀ r : Settled WikiResponse,
      (generateWiki st r).messages = st.messages ∧
      (generateWiki st r).inputValue = st.inputValue ∧
      (generateWiki st r).chatLoading = st.chatLoading ∧
      (generateWiki st r).chatOpen = st.chatOpen) := by
  refine ⟨rfl, rfl, ?_, ?_, rfl, rfl, ?_, ?_⟩
  · intro cur r; cases r <;> rfl
  · intro c; exact ⟨rfl, rfl⟩
  · intro r
    cases r with
    | networkError => exact Or.inr ⟨Or.inl rfl, rfl⟩
    | parseError => exact Or.inr ⟨Or.inr rfl, rfl⟩
    | ok data => exact Or.inl ⟨data.content, rfl, rfl⟩
  · intro r; cases r <;> exact ⟨rfl, rfl, rfl, rfl⟩

end WikiPage

/-! ## Analytics: the search filter -/

namespace Analytics

theorem startsWith_iff (hay needle : List Char) :
    startsWith hay needle = true ↔ ∃ suf, hay = needle ++ suf := by
  induction needle generalizing hay with
  | nil => simp [startsWith]
  | cons n ns ih =>
    cases hay with
    | nil => simp [startsWith]
    | cons h hs =>
      simp only [startsWith, Bool.and_eq_true, beq_iff_eq, ih, List.cons_append, List.cons.injEq]
      constructor
      · rintro ⟨rfl, suf, rfl⟩; exact ⟨suf, rfl, rfl⟩
      · rintro ⟨suf, rfl, rfl⟩; exact ⟨rfl, suf, rfl⟩

theorem includesChars_iff (needle hay : List Char) :
    includesChars needle hay = true ↔ ∃ pre suf, hay = pre ++ needle ++ suf := by
  induction hay with
  | nil =>
    simp only [includesChars, startsWith_iff]
    constructor
    · rintro ⟨suf, h⟩; exact ⟨[], suf, by simpa using h⟩
    · rintro ⟨pre, suf, h⟩
      have h1 : pre ++ needle ++ suf = [] := h.symm
      simp only [List.append_eq_nil] at h1
      exact ⟨[], by simp [h1.1.2]⟩
  | cons h hs ih =>
    simp only [includesChars, Bool.or_eq_true, startsWith_iff, ih]
    constructor
    · rintro (⟨suf, hsuf⟩ | ⟨pre, suf, hps⟩)
      · exact ⟨[], suf, by simpa using hsuf⟩
      · exact ⟨h :: pre, suf, by simp [hps]⟩
    · rintro ⟨pre, suf, hps⟩
      cases pre with
      | nil => exact Or.inl ⟨suf, by simpa using hps⟩
      | cons p ps =>
        simp only [List.cons_append, List.cons.injEq] at hps
        exact Or.inr ⟨ps, suf, hps.2⟩

theorem nameMatches_iff (toLowerCase : String → String) (s : String) (f : FileRecord) :
    nameMatches toLowerCase s f = true ↔ ContainsIgnoringCase toLowerCase f.name s := by
  simp only [nameMatches, includes, includesChars_iff, ContainsIgnoringCase]

theorem names_ascii : ∀ f ∈ TEST_DATA, IsAscii f.name := by
  unfold IsAscii
  decide

theorem filteredFiles_ascii (toLowerCase : String → String) (h : LowersAscii toLowerCase)
    (s : String) (hs : IsAscii s) :
    filteredFiles toLowerCase s = filteredFiles asciiToLowerCase s := by
  unfold filteredFiles
  apply List.filter_congr
  intro f hf
  simp only [nameMatches, h s hs, h f.name (names_ascii f hf)]

theorem isAscii_json : IsAscii "json" := by
  unfold IsAscii
  decide

theorem isAscii_JSON : IsAscii "JSON" := by
  unfold IsAscii
  decide

theorem isAscii_empty : IsAscii "" := by
  unfold IsAscii
  decide

theorem isAscii_zzz : IsAscii "zzz" := by
  unfold IsAscii
  decide

theorem lowersAscii_ascii : LowersAscii asciiToLowerCase := fun _ _ => rfl

theorem noResultsShown_iff (l : List FileRecord) : noResultsShown l = true ↔ l = [] := by
  cases l <;> simp [noResultsShown]

/-- C7: over the fixed set `TEST_DATA`, the search text "json" leaves exactly
the record named `user_metrics.json`, the empty search text leaves all five
records, and a search text matching no record name leaves the empty list, for
which the "no matches" paragraph is shown; that paragraph is shown exactly when
the filtered list is empty. -/
theorem C7_filter_scenarios (toLowerCase : String → String) (h : LowersAscii toLowerCase) :
    filteredFiles toLowerCase "json"
      = [{ id := 2, name := "user_metrics.json", size := "1.2 MB", type := "JSON",
           status := "Transmuted" }] ∧
    filteredFiles toLowerCase "" = TEST_DATA ∧
    TEST_DATA.length = 5 ∧
    (∀ s : String, (∀ f ∈ TEST_DATA, ¬ ContainsIgnoringCase toLowerCase f.name s) →
      filteredFiles toLowerCase s = [] ∧ noResultsShown (filteredFiles toLowerCase s) = true) ∧
    (filteredFiles toLowerCase "zzz" = [] ∧
      noResultsShown (filteredFiles toLowerCase "zzz") = true) ∧
    (∀ s : String, noResultsShown (filteredFiles toLowerCase s) = true
      ↔ filteredFiles toLowerCase s = []) := by
  have hz : filteredFiles toLowerCase "zzz" = [] := by
    rw [filteredFiles_ascii toLowerCase h "zzz" isAscii_zzz]; decide
  refine ⟨?_, ?_, rfl, ?_, ⟨hz, ?_⟩, fun s => noResultsShown_iff _⟩
  · rw [filteredFiles_ascii toLowerCase h "json" isAscii_json]; decide
  · rw [filteredFiles_ascii toLowerCase h "" isAscii_empty]; decide
  · intro s hs
    have he : filteredFiles toLowerCase s = [] := by
      unfold filteredFiles
      rw [List.filter_eq_nil_iff]
      intro f hf hm
      exact hs f hf ((nameMatches_iff toLowerCase s f).mp hm)
    exact ⟨he, (noResultsShown_iff _).mpr he⟩
  · rw [hz]; rfl

theorem C7_witness :
    (filteredFiles asciiToLowerCase "json").map (fun f => f.name) = ["user_metrics.json"] ∧
    filteredFiles asciiToLowerCase "" = TEST_DATA := by
  have h := C7_filter_scenarios asciiToLowerCase lowersAscii_ascii
  exact ⟨by rw [h.1]; rfl, h.2.1⟩

/-- C8: for every search text `s`, a record is in the filtered list exactly when
it is in the fixed set and its lower-cased name contains the lower-cased `s` as
a contiguous block; search texts with the same lower-casing (such as "JSON" and
"json") give the same list; the test reads the `name` field only; and the
filtered list is a sublist of the fixed set (original order) without duplicates. -/
theorem C8_filter_characterisation (toLowerCase : String → String) (s : String) :
    (∀ f : FileRecord, f ∈ filteredFiles toLowerCase s
      ↔ f ∈ TEST_DATA ∧ ContainsIgnoringCase toLowerCase f.name s) ∧
    (∀ s2 : String, toLowerCase s2 = toLowerCase s →
      filteredFiles toLowerCase s2 = filteredFiles toLowerCase s) ∧
    (LowersAscii toLowerCase →
      filteredFiles toLowerCase "JSON" = filteredFiles toLowerCase "json") ∧
    (∀ f g : FileRecord, f.name = g.name →
      nameMatches toLowerCase s f = nameMatches toLowerCase s g) ∧
    List.Sublist (filteredFiles toLowerCase s) TEST_DATA ∧
    (filteredFiles toLowerCase s).Nodup := by
  have hsub : List.Sublist (filteredFiles toLowerCase s) TEST_DATA := List.filter_sublist _
  have hnd : TEST_DATA.Nodup := by decide
  refine ⟨?_, ?_, ?_, ?_, hsub, hnd.sublist hsub⟩
  · intro f
    simp only [filteredFiles, List.mem_filter, nameMatches_iff]
  · intro s2 h2
    have hfun : nameMatches toLowerCase s2 = nameMatches toLowerCase s := by
      funext f
      simp only [nameMatches, h2]
    simp only [filteredFiles, hfun]
  · intro h
    rw [filteredFiles_ascii toLowerCase h "JSON" isAscii_JSON,
      filteredFiles_ascii toLowerCase h "json" isAscii_json]
    decide
  · intro f g hfg
    simp only [nameMatches, hfg]

theorem C8_witness :
    filteredFiles asciiToLowerCase "JSON" = filteredFiles asciiToLowerCase "json" ∧
    List.Sublist (filteredFiles asciiToLowerCase "E.") TEST_DATA :=
  ⟨(C8_filter_characterisation asciiToLowerCase "json").2.2.1 lowersAscii_ascii,
   (C8_filter_characterisation asciiToLowerCase "E.").2.2.2.2.1⟩

end Analytics

/-! ## Statistics: the two counters -/

namespace Statistics

theorem toFixed1_tenths (m : ℕ) (hm : 1 ≤ m) (e : ℚ) (h1 : -(1 / 100) ≤ e) (h2 : e ≤ 1 / 100) :
    toFixed1 ((m : ℚ) / 10 + e) = (m : ℚ) / 10 := by
  have hm1 : (1 : ℚ) ≤ (m : ℚ) := by exact_mod_cast hm
  have hpos : ¬ ((m : ℚ) / 10 + e < 0) := by
    intro hneg
    linarith
  have hfloor : ⌊((m : ℚ) / 10 + e) * 10 + 1 / 2⌋ = (m : ℤ) := by
    rw [Int.floor_eq_iff]
    constructor
    · push_cast; linarith
    · push_cast; linarith
  simp only [toFixed1, hpos, if_false, roundTenths, hfloor]
  push_cast
  rfl

theorem percentAfter_closed (err : ℕ → ℚ) (h : SmallErrors err) (n : ℕ) :
    percentAfter err n = ((min (12 * n) 948 : ℕ) : ℚ) / 10 := by
  induction n with
  | zero => simp [percentAfter]
  | succ n ih =>
    simp only [percentAfter, percentUpdate, targetPercent, ih]
    rw [show (94.8 : ℚ) = 948 / 10 by norm_num, show (1.2 : ℚ) = 12 / 10 by norm_num]
    by_cases hn : 79 ≤ n
    · have e1 : min (12 * n) 948 = 948 := by omega
      have e2 : min (12 * (n + 1)) 948 = 948 := by omega
      rw [e1, e2]
      norm_num
    · have e1 : min (12 * n) 948 = 12 * n := by omega
      have e2 : min (12 * (n + 1)) 948 = 12 * n + 12 := by omega
      rw [e1, e2]
      have hlt : ¬ (((12 * n : ℕ) : ℚ) / 10 ≥ 948 / 10) := by
        have : ((12 * n : ℕ) : ℚ) < 948 := by
          have : 12 * n < 948 := by omega
          exact_mod_cast this
        intro hge
        linarith
      rw [if_neg hlt]
      have hsum : ((12 * n : ℕ) : ℚ) / 10 + 12 / 10 + err n
          = ((12 * n + 12 : ℕ) : ℚ) / 10 + err n := by
        push_cast; ring
      rw [hsum]
      exact toFixed1_tenths (12 * n + 12) (by omega) (err n) (h n).1 (h n).2

theorem sizeAfter_closed (err : ℕ → ℚ) (h : SmallErrors err) (n : ℕ) :
    sizeAfter err n = ((min n 24 : ℕ) : ℚ) / 10 := by
  induction n with
  | zero => simp [sizeAfter]
  | succ n ih =>
    simp only [sizeAfter, sizeUpdate, targetSize, ih]
    rw [show (2.4 : ℚ) = 24 / 10 by norm_num, show (0.1 : ℚ) = 1 / 10 by norm_num]
    by_cases hn : 24 ≤ n
    · have e1 : min n 24 = 24 := by omega
      have e2 : min (n + 1) 24 = 24 := by omega
      rw [e1, e2]
      norm_num
    · have e1 : min n 24 = n := by omega
      have e2 : min (n + 1) 24 = n + 1 := by omega
      rw [e1, e2]
      have hlt : ¬ ((n : ℚ) / 10 ≥ 24 / 10) := by
        have : (n : ℚ) < 24 := by
          have : n < 24 := by omega
          exact_mod_cast this
        intro hge
        linarith
      rw [if_neg hlt]
      have hsum : (n : ℚ) / 10 + 1 / 10 + err n = ((n + 1 : ℕ) : ℚ) / 10 + err n := by
        push_cast; ring
      rw [hsum]
      exact toFixed1_tenths (n + 1) (by omega) (err n) (h n).1 (h n).2

theorem tenths_le (a b : ℕ) (h : a ≤ b) : (a : ℚ) / 10 ≤ (b : ℚ) / 10 := by
  have : (a : ℚ) ≤ (b : ℚ) := by exact_mod_cast h
  linarith

theorem tenths_lt (a b : ℕ) (h : a < b) : (a : ℚ) / 10 < (b : ℚ) / 10 := by
  have : (a : ℚ) < (b : ℚ) := by exact_mod_cast h
  linarith

/-- C9: starting from 0, with steps 1.2 and 0.1 and every value rounded to one
decimal place, each counter never decreases from one tick to the next, never
exceeds its target (94.8, 2.4), is below the target before tick 79 (resp. 24),
equals it at that tick and at every later one; this holds whatever the
floating-point rounding errors of the sums, as long as they are small. -/
theorem C9_counters_reach_targets (errP errS : ℕ → ℚ)
    (hP : SmallErrors errP) (hS : SmallErrors errS) :
    (percentAfter errP 0 = 0 ∧ sizeAfter errS 0 = 0) ∧
    (∀ n, ∃ k : ℕ, percentAfter errP n = (k : ℚ) / 10) ∧
    (∀ n, percentAfter errP n ≤ percentAfter errP (n + 1)) ∧
    (∀ n, percentAfter errP n ≤ targetPercent) ∧
    (∀ n, n < 79 → percentAfter errP n < targetPercent) ∧
    (∀ n, 79 ≤ n → percentAfter errP n = targetPercent) ∧
    (∀ n, ∃ k : ℕ, sizeAfter errS n = (k : ℚ) / 10) ∧
    (∀ n, sizeAfter errS n ≤ sizeAfter errS (n + 1)) ∧
    (∀ n, sizeAfter errS n ≤ targetSize) ∧
    (∀ n, n < 24 → sizeAfter errS n < targetSize) ∧
    (∀ n, 24 ≤ n → sizeAfter errS n = targetSize) := by
  have tP : targetPercent = ((948 : ℕ) : ℚ) / 10 := by norm_num [targetPercent]
  have tS : targetSize = ((24 : ℕ) : ℚ) / 10 := by norm_num [targetSize]
  refine ⟨⟨rfl, rfl⟩, ?_, ?_, ?_, ?_, ?_, ?_, ?_, ?_, ?_, ?_⟩
  · intro n; exact ⟨_, percentAfter_closed errP hP n⟩
  · intro n
    rw [percentAfter_closed errP hP n, percentAfter_closed errP hP (n + 1)]
    exact tenths_le _ _ (by omega)
  · intro n
    rw [percentAfter_closed errP hP n, tP]
    exact tenths_le _ _ (by omega)
  · intro n hn
    rw [percentAfter_closed errP hP n, tP]
    exact tenths_lt _ _ (by omega)
  · intro n hn
    rw [percentAfter_closed errP hP n, tP]
    have : min (12 * n) 948 = 948 := by omega
    rw [this]
  · intro n; exact ⟨_, sizeAfter_closed errS hS n⟩
  · intro n
    rw [sizeAfter_closed errS hS n, sizeAfter_closed errS hS (n + 1)]
    exact tenths_le _ _ (by omega)
  · intro n
    rw [sizeAfter_closed errS hS n, tS]
    exact tenths_le _ _ (by omega)
  · intro n hn
    rw [sizeAfter_closed errS hS n, tS]
    exact tenths_lt _ _ (by omega)
  · intro n hn
    rw [sizeAfter_closed errS hS n, tS]
    have : min n 24 = 24 := by omega
    rw [this]

theorem C9_witness :
    SmallErrors (fun _ => 0) ∧
    percentAfter (fun _ => 0) 79 = 94.8 ∧ sizeAfter (fun _ => 0) 24 = 2.4 ∧
    percentAfter (fun _ => 0) 78 < 94.8 ∧ sizeAfter (fun _ => 0) 23 < 2.4 := by
  have hz : SmallErrors (fun _ => 0) := by
    intro k
    constructor <;> norm_num
  have h := C9_counters_reach_targets (fun _ => 0) (fun _ => 0) hz hz
  exact ⟨hz, h.2.2.2.2.2.1 79 (le_refl _), h.2.2.2.2.2.2.2.2.2.2 24 (le_refl _),
    h.2.2.2.2.1 78 (by norm_num), h.2.2.2.2.2.2.2.2.2.1 23 (by norm_num)⟩

end Statistics

/-! ## Visualize: the selected node -/

namespace Visualize

theorem node_ids_unique :
    ∀ m ∈ VIZ_DATA.nodes, ∀ n ∈ VIZ_DATA.nodes, m.id = n.id → m = n := by
  decide

/-- C10: clicking a node `n` of the fixed graph makes `n` the selected node
whatever was selected before, with the drawer open on the label and impact of
`n`; when the selected node already has the id of `n` the state is unchanged
(the drawer stays open, it is never closed by a click on a node); and Close
leaves no selected node whatever the prior state. -/
theorem C10_select_is_idempotent_close_clears (n : Node) (hn : n ∈ VIZ_DATA.nodes)
    (selectedNode : Option Node) :
    clickNode n selectedNode = some n ∧
    drawerOpen (clickNode n selectedNode) = true ∧
    drawerContent (clickNode n selectedNode) = some (n.label, n.impact) ∧
    isActive (clickNode n selectedNode) n = true ∧
    clickNode n (clickNode n selectedNode) = clickNode n selectedNode ∧
    (∀ m ∈ VIZ_DATA.nodes, m.id = n.id →
      clickNode n (some m) = some m ∧
      drawerOpen (clickNode n (some m)) = true ∧
      drawerContent (clickNode n (some m)) = some (m.label, m.impact)) ∧
    clickClose selectedNode = none ∧
    drawerOpen (clickClose selectedNode) = false ∧
    drawerContent (clickClose selectedNode) = none := by
  refine ⟨rfl, rfl, rfl, by simp [isActive, clickNode], rfl, ?_, rfl, rfl, rfl⟩
  intro m hm hid
  have hmn : m = n := node_ids_unique m hm n hn hid
  subst hmn
  exact ⟨rfl, rfl, rfl⟩

theorem C10_witness :
    ({ id := "doc_5", x := 200, y := 300, label := "Budget Meeting", impact := 2 } : Node)
      ∈ VIZ_DATA.nodes ∧
    drawerContent
      (clickNode { id := "doc_5", x := 200, y := 300, label := "Budget Meeting", impact := 2 }
        (some { id := "doc_5", x := 200, y := 300, label := "Budget Meeting", impact := 2 }))
      = some ("Budget Meeting", 2) :=
  ⟨by decide,
   (C10_select_is_idempotent_close_clears
      { id := "doc_5", x := 200, y := 300, label := "Budget Meeting", impact := 2 } (by decide)
      (some { id := "doc_5", x := 200, y := 300, label := "Budget Meeting", impact := 2 })).2.2.1⟩

end Visualize
